import Mathlib

/-
Verification development for the chatbot-app repository: a shallow embedding
of the RAG pipeline orchestration (src/chatbot/rag_pipeline.py), the Gradio
chat entry point (src/ui/gradio_interface.py), the vector-store wrapper
(src/utils/vector_store.py) and the two generation backends
(src/chatbot/ollama_llm.py, src/chatbot/qwen_llm.py).

Modelling conventions:
- Python strings are modelled as lists of characters (`Str`); Python slicing,
  `len`, and string concatenation are character-based, as are the list
  operations used here.
- Python exceptions are modelled with `Except Str`: `.error e` is a raised
  exception whose description is `e`, and a `try/except` block is a `match`
  on the `Except` value.
- External library calls (the FAISS index, the embedding model, the
  transformers pipeline, the ollama client, the document loaders) are fields
  of explicit environment structures, so every theorem quantifies over their
  behaviour; the repository's own control flow is translated literally.
- LangChain `Document` objects are records of their `page_content` and the
  `source` entry of their metadata dict.
-/

namespace ChatbotApp

/-- Python strings, modelled as lists of characters. -/
abbrev Str := List Char

/-- Python `str.strip()` with no arguments: remove leading and trailing
whitespace. -/
def pytrim (l : Str) : Str :=
  ((l.dropWhile Char.isWhitespace).reverse.dropWhile Char.isWhitespace).reverse

/-- Python `os.path.basename`: the part of the path after the last `/`. -/
def os_path_basename (l : Str) : Str :=
  (l.reverse.takeWhile (fun c => c ≠ '/')).reverse

/-- Python list slice `l[-n:]` (used for
`conversation_history[-settings.MAX_HISTORY_TURNS:]`).  For `n = 0` the
slice `l[0:]` is the whole list; for `n > 0` it is the last `n` elements. -/
def py_last_slice {α : Type} (n : Nat) (l : List α) : List α :=
  if n = 0 then l else l.drop (l.length - n)

/-- LangChain `Document`: `page_content` plus the `source` entry of its
`metadata` dict (`none` when the dict has no `source` key). -/
structure Document where
  page_content : Str
  source : Option Str
deriving Repr, DecidableEq

/-- A FAISS vector store, modelled as the list of chunks it indexes, in
insertion order.  The embedding vectors themselves live in the similarity
scoring functions that the theorems quantify over. -/
abbrev Vectorstore := List Document

/-! ### src/config/settings.py -/

/-- The fields of `config.settings.Settings` that the embedded code reads. -/
structure Settings where
  USE_CONVERSATION_HISTORY : Bool
  MAX_HISTORY_TURNS : Nat
  RETRIEVAL_K : Nat

/-- The defaults from src/config/settings.py:
`USE_CONVERSATION_HISTORY = True`, `MAX_HISTORY_TURNS = 3`,
`RETRIEVAL_K = 4`. -/
def default_settings : Settings :=
  { USE_CONVERSATION_HISTORY := true, MAX_HISTORY_TURNS := 3, RETRIEVAL_K := 4 }

namespace RAGPipeline

/-! ### RAGPipeline.generate_response: query formatting
(src/chatbot/rag_pipeline.py lines 375-393) -/

/-- One line pair of the history preamble:
`f"Previous Q: {q}\nPrevious A: {a}"`. -/
def history_line (p : Str × Str) : Str :=
  "Previous Q: ".data ++ p.1 ++ "\nPrevious A: ".data ++ p.2

/-- The `formatted_query` computed by `generate_response`: when
`settings.USE_CONVERSATION_HISTORY` is set and the history is non-empty, the
last `MAX_HISTORY_TURNS` turns are joined by newlines and prepended to the
query as `f"Conversation History:\n{history_context}\n\nCurrent Question:
{query}"`; otherwise the raw query. -/
def format_query (st : Settings) (query : Str)
    (conversation_history : List (Str × Str)) : Str :=
  if st.USE_CONVERSATION_HISTORY ∧ conversation_history ≠ [] then
    let recent_history := py_last_slice st.MAX_HISTORY_TURNS conversation_history
    let history_context := List.intercalate "\n".data (recent_history.map history_line)
    "Conversation History:\n".data ++ history_context
      ++ "\n\nCurrent Question: ".data ++ query
  else query

/-! ### RAGPipeline._format_response
(src/chatbot/rag_pipeline.py lines 409-440) -/

/-- The lookup `doc.metadata.get('source', 'Unknown')`. -/
def doc_source (d : Document) : Str := d.source.getD "Unknown".data

/-- The display name `os.path.basename(source) if source != 'Unknown' else 'System'`. -/
def doc_display (d : Document) : Str :=
  if doc_source d ≠ "Unknown".data then os_path_basename (doc_source d)
  else "System".data

/-- The citation loop of `_format_response`:
`for i, doc in enumerate(sources[:3], 1)`, with a `seen_sources` set and the
accumulated response string.  A document whose source is already in
`seen_sources` is skipped; otherwise its source is added and the line
`f"{i}. {filename}\n"` is appended. -/
def sources_loop : List Document → Nat → List Str → Str → Str
  | [], _, _, response => response
  | doc :: rest, i, seen_sources, response =>
    let source := doc_source doc
    if source ∈ seen_sources then
      sources_loop rest (i + 1) seen_sources response
    else
      sources_loop rest (i + 1) (source :: seen_sources)
        (response ++ Nat.toDigits 10 i ++ ". ".data ++ doc_display doc ++ "\n".data)

/-- The `"\n\n📚 **Sources:**\n"` header appended before the citations. -/
def sources_header : Str := "\n\n📚 **Sources:**\n".data

/-- Method `RAGPipeline._format_response(response, sources)`: strip the response;
when at least one source document is present, append the sources header and
run the citation loop over `sources[:3]` starting at index 1 with an empty
`seen_sources` set. -/
def format_response (response : Str) (sources : List Document) : Str :=
  let response := pytrim response
  if sources.length > 0 then
    sources_loop (sources.take 3) 1 [] (response ++ sources_header)
  else response

/-! ### The QA chain (src/chatbot/rag_pipeline.py lines 302-348, 393)

`_setup_qa_chain` wires `vectorstore.as_retriever(search_kwargs={"k":
settings.RETRIEVAL_K})` and the LLM into a LangChain `RetrievalQA` chain of
chain type `"stuff"` with a custom prompt template.  `RetrievalQA` semantics:
`invoke({"query": q})` retrieves the documents for `q` with the retriever,
joins their page contents with `"\n\n"`, renders the prompt template over
that context and the same `q`, calls the LLM on the rendered prompt, and
returns the answer together with the retrieved source documents. -/

/-- The retriever and LLM inside an initialized QA chain.  Either call can
raise, which the `Except` values record. -/
structure QAChain where
  retrieve : Str → Except Str (List Document)
  llm : Str → Except Str Str

/-- The fixed head of the custom prompt template in `_setup_qa_chain`. -/
def qa_template_head : Str :=
  ("Use the following pieces of context to answer the question at the end. "
    ++ "If you don't know the answer, just say that you don't know, "
    ++ "don't try to make up an answer.\n\n").data

/-- The rendered prompt template:
`template.format(context=context, question=question)`. -/
def render_qa_prompt (context question : Str) : Str :=
  qa_template_head ++ context ++ "\n\nQuestion: ".data ++ question
    ++ "\nAnswer:".data

/-- The `"stuff"` chain's context block: the retrieved documents' page
contents joined by `"\n\n"`. -/
def stuff_context (docs : List Document) : Str :=
  List.intercalate "\n\n".data (docs.map (fun d => d.page_content))

/-- The call `self.qa_chain.invoke({"query": query})`: retrieve documents for `query`,
generate over the rendered prompt, and return
`{"result": answer, "source_documents": docs}`; a failure in either step is
the raised exception. -/
def qa_invoke (chain : QAChain) (query : Str) :
    Except Str (Str × List Document) := do
  let docs ← chain.retrieve query
  let answer ← chain.llm (render_qa_prompt (stuff_context docs) query)
  pure (answer, docs)

/-! ### RAGPipeline.generate_response
(src/chatbot/rag_pipeline.py lines 350-407) -/

/-- The early return when `self.qa_chain` is not initialized. -/
def not_ready_message : Str :=
  "Sorry, the system is not ready yet. Please try again in a moment.".data

/-- The user-facing apology produced by the `except` clause of
`generate_response`: `f"I apologize, but I encountered an error while
processing your question: {str(e)}"`. -/
def apology_message (e : Str) : Str :=
  "I apologize, but I encountered an error while processing your question: ".data
    ++ e

/-- Method `RAGPipeline.generate_response(query, conversation_history)`: guard on
the QA chain, build the formatted query, invoke the QA chain on it inside
`try`, strip the result (`result.get("result", "").strip()`) and format it
with source citations; any exception from the invocation becomes the
apology string. -/
def generate_response (st : Settings) (qa_chain : Option QAChain) (query : Str)
    (conversation_history : List (Str × Str)) : Str :=
  match qa_chain with
  | none => not_ready_message
  | some chain =>
    let formatted_query := format_query st query conversation_history
    match qa_invoke chain formatted_query with
    | .ok result => format_response (pytrim result.1) result.2
    | .error e => apology_message e

/-! ### RAGPipeline._create_empty_vectorstore and
RAGPipeline._load_and_process_documents
(src/chatbot/rag_pipeline.py lines 164-260) -/

/-- The placeholder `Document` built by `_create_empty_vectorstore`. -/
def placeholder_document : Document :=
  { page_content := ("No documents have been loaded yet. Please add documents "
      ++ "to the data/documents folder and restart the application.").data,
    source := some "system".data }

/-- The filesystem and library environment read by
`_load_and_process_documents`. -/
structure LoadEnv where
  /-- `os.path.exists(os.path.join(vector_store_path, "index.faiss"))`. -/
  persisted_index_exists : Bool
  /-- `FAISS.load_local(vector_store_path, embeddings, ...)`: the
  deserialized store, or the exception the deserialization raises. -/
  load_local : Except Str Vectorstore
  /-- `os.path.exists(documents_path)`. -/
  documents_path_exists : Bool
  /-- `txt_loader.load()` for the `**/*.txt` DirectoryLoader. -/
  load_txt : Except Str (List Document)
  /-- `md_loader.load()` for the `**/*.md` DirectoryLoader. -/
  load_md : Except Str (List Document)
  /-- `text_splitter.split_documents(documents)` for the configured
  RecursiveCharacterTextSplitter. -/
  split_documents : List Document → List Document
  /-- `FAISS.from_documents(docs, embeddings)`: the store indexing `docs`,
  or the exception the embedding/indexing raises.  Both the real-chunk build
  and `_create_empty_vectorstore`'s placeholder build go through this call. -/
  from_documents : List Document → Except Str Vectorstore
  /-- `os.makedirs(...)` followed by `vectorstore.save_local(...)`. -/
  save_local : Vectorstore → Except Str Unit

/-- Method `_create_empty_vectorstore`: build the placeholder store with
`FAISS.from_documents([placeholder_doc], self.embeddings)` — the same
fallible library call used for real chunks, so it can itself raise. -/
def create_empty_vectorstore (env : LoadEnv) : Except Str Vectorstore :=
  env.from_documents [placeholder_document]

/-- The body of the `try` block of `_load_and_process_documents`: load the
`.txt` and `.md` documents, fall back to the placeholder store when none were
found, otherwise split, build the store, and save it. -/
def load_documents_body (env : LoadEnv) : Except Str Vectorstore := do
  let txt ← env.load_txt
  let md ← env.load_md
  let documents := txt ++ md
  if documents.isEmpty then
    create_empty_vectorstore env
  else
    let splits := env.split_documents documents
    let vectorstore ← env.from_documents splits
    let _ ← env.save_local vectorstore
    pure vectorstore

/-- Method `RAGPipeline._load_and_process_documents`, as the vector store the
pipeline ends up with or the exception that propagates out of the method.
The check for an existing persisted index and the `FAISS.load_local` call on
it are before the `try` block, so they are not protected by the `except`
clause, and neither is the `_create_empty_vectorstore()` call of the
absent-directory branch (line 196); the document loading and store building
are inside the `try`, whose `except` clause falls back to
`_create_empty_vectorstore()` — whose own exception, raised inside the
handler, propagates as well. -/
def load_and_process_documents (env : LoadEnv) : Except Str Vectorstore :=
  if env.persisted_index_exists then
    env.load_local
  else if env.documents_path_exists = false then
    create_empty_vectorstore env
  else
    match load_documents_body env with
    | .ok vectorstore => .ok vectorstore
    | .error _ => create_empty_vectorstore env

/-! ### RAGPipeline._initialize_pipeline and RAGPipeline._setup_llm
(src/chatbot/rag_pipeline.py lines 73-140, 262-300)

`__init__` calls `_initialize_pipeline`, whose `except` clause logs and
re-`raise`s, so every exception of a setup step propagates out of the
constructor. -/

/-- The environment of `_initialize_pipeline`: the behaviour of each
externally-backed setup step. -/
structure InitEnv where
  /-- `_setup_embeddings`: the `HuggingFaceEmbeddings(...)` construction. -/
  setup_embeddings : Except Str Unit
  /-- the environment of `_load_and_process_documents`. -/
  load_env : LoadEnv
  /-- `QwenLLM.from_settings(settings, system_prompt=...)`: the model load,
  which re-raises its own failures. -/
  qwen_init : Except Str Unit
  /-- the `'error'` entry of `self.llm.get_model_info()`, when present. -/
  model_info_error : Option Str
  /-- `_setup_qa_chain`: the retriever and `RetrievalQA.from_chain_type`
  wiring (library calls that may raise). -/
  setup_qa_chain : Except Str Unit

/-- Method `RAGPipeline._setup_llm`: construct the Qwen LLM, then check
`get_model_info()` and raise `Exception(f"Qwen model setup failed: ...")`
when it reports an error; the `except` clause logs and re-`raise`s. -/
def setup_llm (env : InitEnv) : Except Str Unit := do
  let _ ← env.qwen_init
  match env.model_info_error with
  | some err => .error ("Qwen model setup failed: ".data ++ err)
  | none => .ok ()

/-- Method `RAGPipeline._initialize_pipeline` (hence the constructor): the four
setup steps in order; the `except` clause re-raises, so the result is the
vector store of a fully initialized pipeline or the first exception. -/
def initialize_pipeline (env : InitEnv) : Except Str Vectorstore := do
  let _ ← env.setup_embeddings
  let vectorstore ← load_and_process_documents env.load_env
  let _ ← setup_llm env
  let _ ← env.setup_qa_chain
  pure vectorstore

/-! ### The retriever produced by `_setup_qa_chain`

`vectorstore.as_retriever(search_type="similarity", search_kwargs={"k":
settings.RETRIEVAL_K})` returns, for a query, the `min(k, size)` indexed
chunks whose embeddings are nearest to the query embedding, most similar
first, ties keeping insertion order.  The similarity scoring comes from the
embedding model, which the theorems quantify over. -/

/-- Insert a document into a list already ranked by weakly decreasing score,
after all strictly higher-scored entries and after equal-scored earlier
insertions. -/
def insert_ranked (score : Document → Int) (d : Document) :
    List Document → List Document
  | [] => [d]
  | e :: es =>
    if score e < score d then d :: e :: es else e :: insert_ranked score d es

/-- Rank a store's chunks by weakly decreasing score, inserting them in
insertion order so that the first-inserted of two equal-scored chunks stays
first. -/
def rank_by (score : Document → Int) (l : List Document) : List Document :=
  l.foldl (fun ranked d => insert_ranked score d ranked) []

/-- The search `vectorstore.similarity_search(query, k)` / the retriever's document
lookup: the top `k` chunks of the index under the query's similarity
scoring. -/
def similarity_top_k (score : Str → Document → Int) (index : Vectorstore)
    (query : Str) (k : Nat) : List Document :=
  (rank_by (score query) index).take k

/-- The QA chain built by `_setup_qa_chain` over a concrete index: its
retriever never raises and returns the top `RETRIEVAL_K` chunks. -/
def chain_over_index (score : Str → Document → Int) (index : Vectorstore)
    (k : Nat) (llm : Str → Except Str Str) : QAChain :=
  { retrieve := fun q => .ok (similarity_top_k score index q k), llm := llm }

end RAGPipeline

namespace ChatbotInterface

/-! ### ChatbotInterface.chat_response
(src/ui/gradio_interface.py lines 85-115) -/

/-- The early return when `self.rag_pipeline` is `None` (pipeline
initialization failed). -/
def not_initialized_message : Str :=
  "❌ Sorry, the chatbot is not properly initialized. Please check the logs.".data

/-- The short-circuit reply for an empty or whitespace-only message. -/
def enter_message_prompt : Str :=
  "Please enter a question or message.".data

/-- The fallback when `generate_response` itself raises:
`f"Sorry, I encountered an error: {str(e)}"`. -/
def interface_error_message (e : Str) : Str :=
  "Sorry, I encountered an error: ".data ++ e

/-- Method `ChatbotInterface.chat_response(message, history)`.  `rag_pipeline` is
`none` when `RAGPipeline()` raised during interface construction; otherwise
it is the pipeline's `generate_response`, which can itself raise (caught by
the interface's `try/except`).  The returned Boolean records whether
`generate_response` was invoked — i.e. whether any call was made into the
RAG pipeline or a backend. -/
def chat_response
    (rag_pipeline : Option (Str → List (Str × Str) → Except Str Str))
    (message : Str) (history : List (Str × Str)) : Str × Bool :=
  match rag_pipeline with
  | none => (not_initialized_message, false)
  | some generate =>
    if pytrim message = [] then
      (enter_message_prompt, false)
    else
      match generate message history with
      | .ok response => (response, true)
      | .error e => (interface_error_message e, true)

end ChatbotInterface

namespace VectorStore

/-! ### utils.vector_store.VectorStore.load
(src/utils/vector_store.py lines 235-253) -/

/-- The filesystem and FAISS environment read by `VectorStore.load`. -/
structure FS where
  /-- `os.path.exists(path)`. -/
  path_exists : Str → Bool
  /-- `FAISS.load_local(path, embeddings, ...)`: the deserialized store or
  the exception it raises. -/
  load_local : Str → Except Str Vectorstore

/-- The mutable state of a `VectorStore` instance: its `self.vector_store`
attribute (`None` until a store is created or loaded). -/
structure State where
  vector_store : Option Vectorstore
deriving Repr, DecidableEq

/-- Method `VectorStore.load(path)`: inside `try`, return `False` when the path
does not exist; otherwise assign the deserialized store and return `True`;
the `except` clause catches any exception and returns `False` (the
assignment never happened, so the state is unchanged).  The result is the
returned Boolean together with the instance state after the call. -/
def load (fs : FS) (st : State) (path : Str) : Bool × State :=
  if fs.path_exists path = false then
    (false, st)
  else
    match fs.load_local path with
    | .ok store => (true, { vector_store := some store })
    | .error _ => (false, st)

end VectorStore

namespace OllamaLLM

/-! ### chatbot.ollama_llm.OllamaLLM
(src/chatbot/ollama_llm.py lines 120-237) -/

/-- The generation options dict built by `_call`/`_stream`
(`temperature`, `top_p`, `top_k`, `num_predict`, and `stop` when given).
The float-valued parameters are modelled as rationals. -/
structure Options where
  temperature : ℚ
  top_p : ℚ
  top_k : Int
  num_predict : Int
  stop : Option (List Str)
deriving Repr, DecidableEq

/-- The request dict sent to `client.generate(**request_params)`. -/
structure Request where
  model : Str
  prompt : Str
  stream : Bool
  options : Options
  system : Option Str
  keep_alive : Str
deriving Repr, DecidableEq

/-- The `OllamaLLM` field values (pydantic fields of the wrapper). -/
structure Config where
  model : Str
  temperature : ℚ
  top_p : ℚ
  top_k : Int
  max_tokens : Int
  keep_alive : Str
  system_prompt : Option Str
deriving Repr, DecidableEq

/-- The `request_params` assembled by both `_call` and `_stream`: model,
prompt, the stream flag, the options dict, the optional system prompt, and
`keep_alive`. -/
def build_request (cfg : Config) (prompt : Str) (stop : Option (List Str))
    (stream : Bool) : Request :=
  { model := cfg.model, prompt := prompt, stream := stream,
    options := { temperature := cfg.temperature, top_p := cfg.top_p,
                 top_k := cfg.top_k, num_predict := cfg.max_tokens,
                 stop := stop },
    system := cfg.system_prompt, keep_alive := cfg.keep_alive }

/-- A non-streaming ollama response dict: its `response` text (if the key is
present) and optional `eval_count`. -/
structure Response where
  response : Option Str
  eval_count : Option Int
deriving Repr, DecidableEq

/-- One chunk of a streaming ollama response: its `response` fragment when
the key is present. -/
structure Chunk where
  response : Option Str
deriving Repr, DecidableEq

/-- The ollama client (`self.client`), as the outcomes of its `generate`
calls.  For streaming, iterating the returned generator delivers a list of
chunks and then either ends normally (`none`) or raises a transport error
(`some e`) — the chunks are exactly those delivered before the failure. -/
structure Backend where
  generate : Request → Except Str Response
  generate_stream : Request → List Chunk × Option Str

/-- The error text returned by `_call` on any exception. -/
def call_error_text (cfg : Config) : Str :=
  ("Error: Failed to generate response. Please check if Ollama is running "
    ++ "and the model '").data ++ cfg.model ++ "' is available.".data

/-- The single error fragment yielded by `_stream` on any exception. -/
def stream_error_text (cfg : Config) : Str :=
  ("Error: Failed to stream response. Please check if Ollama is running "
    ++ "and the model '").data ++ cfg.model ++ "' is available.".data

/-- Method `OllamaLLM._call(prompt, stop)`: send the non-streaming request and
return `response.get("response", "")`; any exception is caught and turned
into the error text. -/
def call (cfg : Config) (backend : Backend) (prompt : Str)
    (stop : Option (List Str)) : Str :=
  match backend.generate (build_request cfg prompt stop false) with
  | .ok response => response.response.getD []
  | .error _ => call_error_text cfg

/-- Method `OllamaLLM._stream(prompt, stop)`, as the list of fragments the
generator yields: the `response` field of each delivered chunk that has one;
when iteration raises, the `except` clause yields the single error fragment
and the generator ends. -/
def stream (cfg : Config) (backend : Backend) (prompt : Str)
    (stop : Option (List Str)) : List Str :=
  let result := backend.generate_stream (build_request cfg prompt stop true)
  let tokens := result.1.filterMap (fun c => c.response)
  match result.2 with
  | some _ => tokens ++ [stream_error_text cfg]
  | none => tokens

end OllamaLLM

namespace QwenLLM

/-! ### chatbot.qwen_llm.QwenLLM
(src/chatbot/qwen_llm.py lines 128-218) -/

/-- The `QwenLLM` configuration read by `_call`/`_format_prompt`. -/
structure Config where
  system_prompt : Option Str
deriving Repr, DecidableEq

/-- One output dict of the transformers text-generation pipeline. -/
structure GenOutput where
  generated_text : Str
deriving Repr, DecidableEq

/-- The local transformers pipeline (`self.pipeline`): the list of output
dicts for a formatted prompt, or the exception the call raises. -/
structure Backend where
  pipeline : Str → Except Str (List GenOutput)

/-- Method `QwenLLM._format_prompt(prompt)`. -/
def format_prompt (cfg : Config) (prompt : Str) : Str :=
  match cfg.system_prompt with
  | some sp =>
    "System: ".data ++ sp ++ "\n\nUser: ".data ++ prompt ++ "\n\nAssistant:".data
  | none => "User: ".data ++ prompt ++ "\n\nAssistant:".data

/-- Method `QwenLLM._call(prompt)`: run the pipeline on the formatted prompt; with
a non-empty output list return `response[0]['generated_text'].strip()`,
otherwise `"No response generated"`; any exception is caught and becomes
`f"Error: Failed to generate response. {str(e)}"`. -/
def call (cfg : Config) (backend : Backend) (prompt : Str) : Str :=
  match backend.pipeline (format_prompt cfg prompt) with
  | .ok outputs =>
    match outputs with
    | [] => "No response generated".data
    | o :: _ => pytrim o.generated_text
  | .error e => "Error: Failed to generate response. ".data ++ e

/-- The `chunk_size = 50` of `QwenLLM._stream`. -/
def chunk_size : Nat := 50

/-- The offsets `range(0, n, chunk_size)` for `chunk_size = 50`. -/
def stream_offsets (n : Nat) : List Nat :=
  List.range' 0 ((n + 49) / 50) 50

/-- The Python slice `response[i:i+50]`. -/
def py_slice50 (s : Str) (i : Nat) : Str := (s.drop i).take 50

/-- Method `QwenLLM._stream(prompt)`, as the list of fragments it yields:
`response = self._call(prompt, ...)`, then `response[i:i+chunk_size]` for
`i in range(0, len(response), chunk_size)`.  (`call` is total in this model
— `_call` catches its own exceptions — and the slicing loop cannot raise,
so the `except` clause of `_stream` is unreachable.) -/
def stream (cfg : Config) (backend : Backend) (prompt : Str) : List Str :=
  let response := call cfg backend prompt
  (stream_offsets response.length).map (py_slice50 response)

end QwenLLM

/-! ### Declarative citation model (for the analysis of `_format_response`)

`sources_loop` is a stateful string-building loop; the definitions below give
its citation list declaratively so that deduplication order, the cap, and
duplicate-freedom can be stated and proved. -/

namespace RAGPipeline

/-- The `(number, document)` pairs whose citation lines `sources_loop`
appends: the loop over the documents with the running index and the
`seen_sources` set, keeping each document whose source key is new. -/
def entries_aux : List Document → Nat → List Str → List (Nat × Document)
  | [], _, _ => []
  | d :: rest, i, seen =>
    if doc_source d ∈ seen then entries_aux rest (i + 1) seen
    else (i, d) :: entries_aux rest (i + 1) (doc_source d :: seen)

/-- The citation line `f"{i}. {filename}\n"` of one kept entry. -/
def render_pair (p : Nat × Document) : Str :=
  Nat.toDigits 10 p.1 ++ ". ".data ++ doc_display p.2 ++ "\n".data

/-- Keep the first occurrence of every element, in first-seen order. -/
def dedup_keep_first : List Str → List Str
  | [] => []
  | x :: xs => x :: dedup_keep_first (xs.filter (fun y => decide (y ≠ x)))
termination_by l => l.length
decreasing_by
  exact Nat.lt_succ_of_le (List.length_filter_le _ _)

end RAGPipeline

/-! ### Concrete instances used by counterexamples and witnesses -/

/-- A chunk loaded from `docs/a.txt`. -/
def doc_a : Document :=
  { page_content := "Fever is common in infants.".data,
    source := some "docs/a.txt".data }

/-- A chunk loaded from `docs/b.txt`. -/
def doc_b : Document :=
  { page_content := "Vaccines prevent disease.".data,
    source := some "docs/b.txt".data }

/-- A chunk loaded from `docs/c.txt`. -/
def doc_c : Document :=
  { page_content := "Sleep is important for infants.".data,
    source := some "docs/c.txt".data }

/-- A QA chain whose retriever distinguishes the raw query `"hello"` from
any other retrieval input: the index contains `doc_a` nearest to `"hello"`
and `doc_b` nearest to everything else, and the generator always answers
`"answer"`. -/
def history_sensitive_chain : RAGPipeline.QAChain :=
  { retrieve := fun q => .ok (if q = "hello".data then [doc_a] else [doc_b]),
    llm := fun _ => .ok "answer".data }

/-- A startup environment in which a persisted index blob exists on disk but
fails to deserialize, while the source documents themselves are present and
perfectly loadable. -/
def corrupt_blob_env : RAGPipeline.LoadEnv :=
  { persisted_index_exists := true,
    load_local := .error "could not deserialize index blob".data,
    documents_path_exists := true,
    load_txt := .ok [doc_a],
    load_md := .ok [],
    split_documents := fun docs => docs,
    from_documents := fun docs => .ok docs,
    save_local := fun _ => .ok () }

/-- A startup environment with no persisted index in which the document
loaders crash and saving fails, while `FAISS.from_documents` itself works
(the embedding backend is up), so the placeholder fallback can be built. -/
def rebuild_fails_env : RAGPipeline.LoadEnv :=
  { persisted_index_exists := false,
    load_local := .error "unused".data,
    documents_path_exists := true,
    load_txt := .error "loader crashed".data,
    load_md := .error "loader crashed".data,
    split_documents := fun docs => docs,
    from_documents := fun docs => .ok docs,
    save_local := fun _ => .error "disk full".data }

/-- A QA chain whose retriever raises (vector index unavailable). -/
def failing_retrieval_chain : RAGPipeline.QAChain :=
  { retrieve := fun _ => .error "vector index unavailable".data,
    llm := fun _ => .ok "unused".data }

/-- A startup environment with no persisted index and an absent documents
directory. -/
def no_documents_env : RAGPipeline.LoadEnv :=
  { persisted_index_exists := false,
    load_local := .error "unused".data,
    documents_path_exists := false,
    load_txt := .ok [],
    load_md := .ok [],
    split_documents := fun docs => docs,
    from_documents := fun docs => .ok docs,
    save_local := fun _ => .ok () }

/-- An initialization environment whose embeddings setup raises. -/
def embeddings_fail_env : RAGPipeline.InitEnv :=
  { setup_embeddings := .error "embedding model unavailable".data,
    load_env := no_documents_env,
    qwen_init := .ok (),
    model_info_error := none,
    setup_qa_chain := .ok () }

/-- A filesystem on which no path exists. -/
def empty_fs : VectorStore.FS :=
  { path_exists := fun _ => false,
    load_local := fun _ => .error "unused".data }

/-- An `OllamaLLM` configuration (the settings defaults of
src/config/settings.py mapped by `from_settings`). -/
def ollama_default_cfg : OllamaLLM.Config :=
  { model := "deepseek-r1:7b".data, temperature := 3 / 10, top_p := 9 / 10,
    top_k := 40, max_tokens := 512, keep_alive := "5m".data,
    system_prompt := none }

/-- An ollama client whose daemon is unreachable: every request fails with a
transport error before any chunk is delivered. -/
def unreachable_ollama : OllamaLLM.Backend :=
  { generate := fun _ => .error "connection refused".data,
    generate_stream := fun _ => ([], some "connection refused".data) }

/-- A Qwen backend whose pipeline returns one output of more than 50
characters. -/
def qwen_long_backend : QwenLLM.Backend :=
  { pipeline := fun _ => .ok
      [{ generated_text :=
          ("The answer is that fever is common in infants and usually "
            ++ "resolves on its own.").data }] }

/-- A `QwenLLM` configuration without a system prompt. -/
def qwen_default_cfg : QwenLLM.Config := { system_prompt := none }

/-! ## Theorems -/

open RAGPipeline

/-- C8: `VectorStore.load` on a path that does not exist on disk returns
`False` without raising and leaves the in-memory vector store unchanged. -/
theorem claim_C8 (fs : VectorStore.FS) (st : VectorStore.State) (path : Str)
    (h : fs.path_exists path = false) :
    VectorStore.load fs st path = (false, st) := by
  simp [VectorStore.load, h]

/-- Witness for C8 at a concrete missing path and fresh instance state. -/
theorem claim_C8_witness :
    VectorStore.load empty_fs { vector_store := none } "data/vector_store".data
      = (false, { vector_store := none }) :=
  claim_C8 empty_fs { vector_store := none } "data/vector_store".data rfl

/-- C7: an empty or whitespace-only chat message never reaches the RAG
pipeline (the call flag is `false`), and on an initialized pipeline the chat
entry point returns the direct prompt asking the user to enter a message. -/
theorem claim_C7
    (rag_pipeline : Option (Str → List (Str × Str) → Except Str Str))
    (message : Str) (history : List (Str × Str))
    (h : pytrim message = []) :
    (ChatbotInterface.chat_response rag_pipeline message history).2 = false
    ∧ (∀ g, rag_pipeline = some g →
        ChatbotInterface.chat_response rag_pipeline message history
          = (ChatbotInterface.enter_message_prompt, false)) := by
  cases rag_pipeline <;>
    simp [ChatbotInterface.chat_response, h]

/-- Witness for C7: a whitespace-only message on an initialized pipeline. -/
theorem claim_C7_witness :
    ChatbotInterface.chat_response (some fun _ _ => .ok "hi".data)
        "  \n ".data []
      = (ChatbotInterface.enter_message_prompt, false) :=
  (claim_C7 (some fun _ _ => .ok "hi".data) "  \n ".data [] (by decide)).2 _ rfl

/-- C2 counterexample: with a persisted index blob that exists but fails to
deserialize — while the source documents themselves are present and
loadable — `_load_and_process_documents` propagates the deserialization
exception instead of falling back, because the `FAISS.load_local` call sits
before the `try` block.  This refutes the claim that a persistence failure
never propagates out of index setup. -/
theorem claim_C2_counterexample :
    load_and_process_documents corrupt_blob_env
      = .error "could not deserialize index blob".data := rfl

/-- C2 amended: when a persisted blob exists, setup returns exactly the
result of deserializing it, so a deserialization failure propagates and
aborts startup.  When no blob exists, every failure of document loading,
splitting, index building or saving is caught and the setup falls back to
building the placeholder store: setup succeeds whenever the placeholder
build (`FAISS.from_documents` on the placeholder document) succeeds, and the
only failure that can still propagate out of the no-blob path is the
placeholder build itself raising — at line 196 outside the `try`, or inside
the `except` handler at line 247. -/
theorem claim_C2_amended (env : LoadEnv) :
    (env.persisted_index_exists = true →
        load_and_process_documents env = env.load_local)
    ∧ (env.persisted_index_exists = false →
        (∀ ph, env.from_documents [placeholder_document] = .ok ph →
          ∃ vs, load_and_process_documents env = .ok vs)
        ∧ (∀ e, load_and_process_documents env = .error e →
            env.from_documents [placeholder_document] = .error e)) := by
  constructor
  · intro h
    simp [load_and_process_documents, h]
  · intro h
    constructor
    · intro ph hph
      cases hd : env.documents_path_exists
      · exact ⟨ph, by
          simp [load_and_process_documents, create_empty_vectorstore, h, hd,
            hph]⟩
      · cases hb : load_documents_body env with
        | ok vs =>
          exact ⟨vs, by simp [load_and_process_documents, h, hd, hb]⟩
        | error e =>
          exact ⟨ph, by
            simp [load_and_process_documents, create_empty_vectorstore, h, hd,
              hb, hph]⟩
    · intro e he
      cases hd : env.documents_path_exists
      · simpa [load_and_process_documents, create_empty_vectorstore, h, hd]
          using he
      · cases hb : load_documents_body env with
        | ok vs => simp [load_and_process_documents, h, hd, hb] at he
        | error e2 =>
          simpa [load_and_process_documents, create_empty_vectorstore, h, hd,
            hb] using he

/-- Witness for C2 (amended): with no persisted blob, crashing loaders and a
failing save, index setup still succeeds because the placeholder build
works. -/
theorem claim_C2_witness :
    ∃ vs, load_and_process_documents rebuild_fails_env = .ok vs :=
  ((claim_C2_amended rebuild_fails_env).2 rfl).1 [placeholder_document] rfl

/-- C3: on an initialized pipeline, an exception raised by retrieval or by
generation is caught by `generate_response`, which returns the apology
string; the apology is non-empty and carries the error description as a
suffix.  (`generate_response` is a total function of its environment in this
model: the only non-apology outputs are the not-ready message and the
formatted answer.) -/
theorem claim_C3 (st : Settings) (chain : QAChain) (query : Str)
    (history : List (Str × Str)) :
    (∀ e, chain.retrieve (format_query st query history) = .error e →
        generate_response st (some chain) query history = apology_message e)
    ∧ (∀ docs e,
        chain.retrieve (format_query st query history) = .ok docs →
        chain.llm (render_qa_prompt (stuff_context docs)
            (format_query st query history)) = .error e →
        generate_response st (some chain) query history = apology_message e)
    ∧ (∀ e, apology_message e ≠ [] ∧ e <:+ apology_message e) := by
  refine ⟨?_, ?_, ?_⟩
  · intro e he
    simp [generate_response, qa_invoke, he, Bind.bind, Except.bind]
  · intro docs e h1 h2
    simp [generate_response, qa_invoke, h1, h2, Bind.bind, Except.bind, Functor.map, Except.map]
  · intro e
    exact ⟨List.cons_ne_nil _ _, List.suffix_append _ _⟩

/-- Witness for C3: a pipeline whose vector index raises on every retrieval
produces the apology carrying that error. -/
theorem claim_C3_witness :
    generate_response default_settings (some failing_retrieval_chain)
        "hello".data []
      = apology_message "vector index unavailable".data :=
  (claim_C3 default_settings failing_retrieval_chain "hello".data []).1
    "vector index unavailable".data rfl

/-- C6: pipeline initialization never swallows a setup failure — the
constructor yields an initialized pipeline exactly when all four setup steps
succeed — and an exception of the embeddings setup, the language-model
setup, or the QA-chain setup is re-raised verbatim out of the
constructor. -/
theorem claim_C6 (env : InitEnv) :
    ((initialize_pipeline env).isOk
        = (env.setup_embeddings.isOk
            && (load_and_process_documents env.load_env).isOk
            && (setup_llm env).isOk
            && env.setup_qa_chain.isOk))
    ∧ (∀ e, env.setup_embeddings = .error e →
        initialize_pipeline env = .error e)
    ∧ (∀ vs e, env.setup_embeddings = .ok () →
        load_and_process_documents env.load_env = .ok vs →
        setup_llm env = .error e →
        initialize_pipeline env = .error e)
    ∧ (∀ vs e, env.setup_embeddings = .ok () →
        load_and_process_documents env.load_env = .ok vs →
        setup_llm env = .ok () →
        env.setup_qa_chain = .error e →
        initialize_pipeline env = .error e) := by
  refine ⟨?_, ?_, ?_, ?_⟩
  · cases h1 : env.setup_embeddings with
    | error e => simp [initialize_pipeline, h1, Except.isOk, Except.toBool, Bind.bind, Except.bind]
    | ok u =>
      cases u
      cases h2 : load_and_process_documents env.load_env with
      | error e => simp [initialize_pipeline, h1, h2, Except.isOk, Except.toBool, Bind.bind, Except.bind]
      | ok vs =>
        cases h3 : setup_llm env with
        | error e =>
          simp [initialize_pipeline, h1, h2, h3, Except.isOk, Except.toBool, Bind.bind, Except.bind, Functor.map, Except.map, Pure.pure, Except.pure]
        | ok u =>
          cases u
          cases h4 : env.setup_qa_chain with
          | error e =>
            simp [initialize_pipeline, h1, h2, h3, h4, Except.isOk, Except.toBool, Bind.bind, Except.bind, Functor.map, Except.map, Pure.pure, Except.pure]
          | ok u =>
            cases u
            simp [initialize_pipeline, h1, h2, h3, h4, Except.isOk, Except.toBool, Bind.bind, Except.bind, Functor.map, Except.map, Pure.pure, Except.pure]
  · intro e h1
    simp [initialize_pipeline, h1, Bind.bind, Except.bind]
  · intro vs e h1 h2 h3
    simp [initialize_pipeline, h1, h2, h3, Bind.bind, Except.bind, Functor.map, Except.map]
  · intro vs e h1 h2 h3 h4
    simp [initialize_pipeline, h1, h2, h3, h4, Bind.bind, Except.bind, Functor.map, Except.map]

/-- Witness for C6: a failing embeddings setup aborts the constructor with
that very exception. -/
theorem claim_C6_witness :
    initialize_pipeline embeddings_fail_env
      = .error "embedding model unavailable".data :=
  (claim_C6 embeddings_fail_env).2.1 "embedding model unavailable".data rfl

/-- C9: when the ollama daemon fails with a transport error, `_call` returns
the (non-empty) error text instead of raising, and `_stream` yields the
fragments delivered before the failure followed by exactly one error-text
fragment — in particular, exactly the single error fragment when the request
itself fails — so the caller always receives some textual output. -/
theorem claim_C9 (cfg : OllamaLLM.Config) (backend : OllamaLLM.Backend)
    (prompt : Str) (stop : Option (List Str)) :
    (∀ e, backend.generate (OllamaLLM.build_request cfg prompt stop false)
          = .error e →
        OllamaLLM.call cfg backend prompt stop = OllamaLLM.call_error_text cfg
          ∧ OllamaLLM.call_error_text cfg ≠ [])
    ∧ (∀ chunks e,
        backend.generate_stream (OllamaLLM.build_request cfg prompt stop true)
          = (chunks, some e) →
        OllamaLLM.stream cfg backend prompt stop
            = chunks.filterMap (fun c => c.response)
                ++ [OllamaLLM.stream_error_text cfg]
          ∧ (chunks = [] →
              OllamaLLM.stream cfg backend prompt stop
                = [OllamaLLM.stream_error_text cfg])
          ∧ OllamaLLM.stream cfg backend prompt stop ≠ []) := by
  constructor
  · intro e he
    exact ⟨by simp [OllamaLLM.call, he], List.cons_ne_nil _ _⟩
  · intro chunks e he
    refine ⟨?_, ?_, ?_⟩
    · simp [OllamaLLM.stream, he]
    · intro hc
      simp [OllamaLLM.stream, he, hc]
    · simp [OllamaLLM.stream, he]

/-- Witness for C9: an unreachable daemon (transport error before any chunk
is delivered). -/
theorem claim_C9_witness :
    (OllamaLLM.call ollama_default_cfg unreachable_ollama "hi".data none
        = OllamaLLM.call_error_text ollama_default_cfg
      ∧ OllamaLLM.call_error_text ollama_default_cfg ≠ [])
    ∧ OllamaLLM.stream ollama_default_cfg unreachable_ollama "hi".data none
        = [OllamaLLM.stream_error_text ollama_default_cfg] :=
  ⟨(claim_C9 ollama_default_cfg unreachable_ollama "hi".data none).1
      "connection refused".data rfl,
    ((claim_C9 ollama_default_cfg unreachable_ollama "hi".data none).2
      [] "connection refused".data rfl).2.1 rfl⟩

/-- C1 counterexample: with history inclusion enabled, the same raw query
`"hello"` against the same chain retrieves `doc_a` when the history is empty
but `doc_b` when a history turn is present — even though retrieval on the
raw query yields `doc_a` — because `generate_response` hands the
history-prefixed `formatted_query` to `qa_chain.invoke`, which retrieves on
exactly that input.  The history preamble therefore does change which chunks
are retrieved, refuting the claim. -/
theorem claim_C1_counterexample :
    history_sensitive_chain.retrieve "hello".data = .ok [doc_a]
    ∧ generate_response default_settings (some history_sensitive_chain)
        "hello".data []
      = "answer\n\n📚 **Sources:**\n1. a.txt\n".data
    ∧ generate_response default_settings (some history_sensitive_chain)
        "hello".data [("What about vaccines?".data, "They help.".data)]
      = "answer\n\n📚 **Sources:**\n1. b.txt\n".data := by
  refine ⟨rfl, by decide, by decide⟩

/-- C1 amended: the retrieval input of `generate_response` is the
history-prefixed `formatted_query` — the documents cited in the answer are
the ones retrieved for it, so the preamble affects retrieval as well as
prompt assembly; only when history inclusion is disabled or the history is
empty is the raw query the retrieval input. -/
theorem claim_C1_amended (st : Settings) (chain : QAChain) (query : Str)
    (history : List (Str × Str)) (docs : List Document) (answer : Str)
    (hr : chain.retrieve (format_query st query history) = .ok docs)
    (hl : chain.llm (render_qa_prompt (stuff_context docs)
        (format_query st query history)) = .ok answer) :
    generate_response st (some chain) query history
      = format_response (pytrim answer) docs
    ∧ (st.USE_CONVERSATION_HISTORY = false ∨ history = [] →
        format_query st query history = query) := by
  constructor
  · simp [generate_response, qa_invoke, hr, hl, Bind.bind, Except.bind,
      Functor.map, Except.map, Pure.pure, Except.pure]
  · rintro (h | h) <;> simp [format_query, h]

/-- Witness for C1 (amended) at a concrete chain, query and empty history. -/
theorem claim_C1_witness :
    generate_response default_settings (some history_sensitive_chain)
        "bye".data []
      = format_response (pytrim "answer".data) [doc_b]
    ∧ (default_settings.USE_CONVERSATION_HISTORY = false
        ∨ ([] : List (Str × Str)) = [] →
        format_query default_settings "bye".data [] = "bye".data) :=
  claim_C1_amended default_settings history_sensitive_chain "bye".data []
    [doc_b] "answer".data rfl rfl

/-- The citation block `_format_response` appends for the placeholder store:
a single entry numbered 1 and labeled `system`. -/
theorem sources_loop_placeholder (acc : Str) :
    sources_loop [placeholder_document] 1 [] acc
      = acc ++ "1. system\n".data := by
  have h : sources_loop [placeholder_document] 1 [] acc
      = acc ++ Nat.toDigits 10 1 ++ ". ".data
          ++ doc_display placeholder_document ++ "\n".data := rfl
  rw [h]
  simp only [List.append_assoc]
  exact congrArg (acc ++ ·) (by decide)

/-- C5: with no persisted index, an absent documents directory (or no
loadable documents), and a working embedding/indexing backend (so
`FAISS.from_documents` on the single placeholder document yields the store
indexing it), startup builds the store containing exactly the placeholder
chunk — whose text states that no documents have been loaded and whose
source metadata is the system label — and `generate_response` over that
store answers with exactly one source entry, `1. system`, instead of
crashing. -/
theorem claim_C5 (lenv : LoadEnv)
    (h1 : lenv.persisted_index_exists = false)
    (h2 : lenv.documents_path_exists = false
      ∨ (lenv.load_txt = .ok [] ∧ lenv.load_md = .ok []))
    (h3 : lenv.from_documents [placeholder_document] = .ok [placeholder_document])
    (score : Str → Document → Int) (llm : Str → Str) (st : Settings)
    (query : Str) (history : List (Str × Str)) :
    load_and_process_documents lenv = .ok [placeholder_document]
    ∧ generate_response st
        (some (chain_over_index score [placeholder_document]
          default_settings.RETRIEVAL_K (fun p => .ok (llm p))))
        query history
      = pytrim (pytrim (llm (render_qa_prompt
            (stuff_context [placeholder_document])
            (format_query st query history))))
          ++ sources_header ++ "1. system\n".data := by
  constructor
  · rcases h2 with h2 | ⟨h2a, h2b⟩
    · simp [load_and_process_documents, h1, h2, create_empty_vectorstore, h3]
    · cases hd : lenv.documents_path_exists
      · simp [load_and_process_documents, h1, hd, create_empty_vectorstore,
          h3]
      · simp [load_and_process_documents, load_documents_body, h1, hd, h2a,
          h2b, create_empty_vectorstore, h3, Bind.bind, Except.bind,
          Pure.pure, Except.pure]
  · show format_response
        (pytrim (llm (render_qa_prompt (stuff_context [placeholder_document])
          (format_query st query history))))
        [placeholder_document] = _
    rw [format_response]
    simp only [List.length_cons, List.length_nil, Nat.zero_add,
      Nat.lt_irrefl, gt_iff_lt, Nat.zero_lt_one, if_true, List.take]
    rw [sources_loop_placeholder]

/-- Witness for C5: the concrete absent-documents startup environment. -/
theorem claim_C5_witness :
    load_and_process_documents no_documents_env = .ok [placeholder_document] :=
  (claim_C5 no_documents_env rfl (Or.inl rfl) rfl (fun _ _ => 0)
    (fun _ => "I do not know.".data) default_settings "anything".data []).1

/-- Unrolling `sources_loop`: the loop appends exactly the rendered citation
lines of its kept entries to the accumulator. -/
theorem sources_loop_eq (l : List Document) :
    ∀ (i : Nat) (seen : List Str) (acc : Str),
    sources_loop l i seen acc
      = acc ++ ((entries_aux l i seen).map render_pair).flatten := by
  induction l with
  | nil => intro i seen acc; simp [sources_loop, entries_aux]
  | cons d rest ih =>
    intro i seen acc
    by_cases h : doc_source d ∈ seen
    · simp [sources_loop, entries_aux, h, ih]
    · simp [sources_loop, entries_aux, h, ih, render_pair, List.append_assoc]

/-- Every element of `dedup_keep_first l` is an element of `l`. -/
theorem mem_dedup_keep_first (l : List Str) (a : Str)
    (h : a ∈ dedup_keep_first l) : a ∈ l := by
  match l with
  | [] =>
    rw [dedup_keep_first] at h
    exact absurd h (List.not_mem_nil a)
  | x :: xs =>
    rw [dedup_keep_first] at h
    rcases List.mem_cons.mp h with h | h
    · exact h ▸ List.mem_cons_self x xs
    · have hm := mem_dedup_keep_first (xs.filter (fun y => decide (y ≠ x))) a h
      exact List.mem_cons_of_mem x (List.mem_of_mem_filter hm)
termination_by l.length
decreasing_by exact Nat.lt_succ_of_le (List.length_filter_le _ _)

/-- Function `dedup_keep_first` produces a duplicate-free list. -/
theorem dedup_keep_first_nodup (l : List Str) : (dedup_keep_first l).Nodup := by
  match l with
  | [] =>
    rw [dedup_keep_first]
    exact List.nodup_nil
  | x :: xs =>
    rw [dedup_keep_first]
    refine List.nodup_cons.mpr
      ⟨?_, dedup_keep_first_nodup (xs.filter (fun y => decide (y ≠ x)))⟩
    intro hmem
    have hx := mem_dedup_keep_first _ _ hmem
    have := (List.mem_filter.mp hx).2
    simp at this
termination_by l.length
decreasing_by exact Nat.lt_succ_of_le (List.length_filter_le _ _)

/-- The source keys of the kept citation entries: the loop keeps the first
occurrence of each source key not already seen, in first-seen order. -/
theorem entries_aux_sources (l : List Document) : ∀ (i : Nat) (seen : List Str),
    (entries_aux l i seen).map (fun p => doc_source p.2)
      = dedup_keep_first
          ((l.map doc_source).filter (fun k => decide (k ∉ seen))) := by
  induction l with
  | nil => intro i seen; simp [entries_aux, dedup_keep_first]
  | cons d rest ih =>
    intro i seen
    by_cases h : doc_source d ∈ seen
    · simp only [entries_aux, if_pos h, List.map_cons, List.filter_cons]
      rw [ih]
      simp [h]
    · simp only [entries_aux, if_neg h, List.map_cons, List.filter_cons]
      have hd : decide (doc_source d ∉ seen) = true := by simpa using h
      rw [hd]
      simp only [if_true]
      rw [ih, dedup_keep_first, List.filter_filter]
      congr 2
      apply List.filter_congr
      intro x hx
      rw [show (decide (x ≠ doc_source d) && decide (x ∉ seen))
          = decide (x ≠ doc_source d ∧ x ∉ seen) from (Bool.decide_and _ _).symm,
        decide_eq_decide]
      simp [List.mem_cons, not_or]

/-- The loop keeps at most as many entries as it visits documents. -/
theorem entries_aux_length (l : List Document) : ∀ (i : Nat) (seen : List Str),
    (entries_aux l i seen).length ≤ l.length := by
  induction l with
  | nil => intro i seen; simp [entries_aux]
  | cons d rest ih =>
    intro i seen
    by_cases h : doc_source d ∈ seen
    · simp only [entries_aux, if_pos h, List.length_cons]
      exact le_trans (ih _ _) (Nat.le_succ _)
    · simp only [entries_aux, if_neg h, List.length_cons]
      exact Nat.succ_le_succ (ih _ _)

/-- C4 counterexample: for the retrieved chunks `[doc_a, doc_a, doc_b,
doc_c]` the claim's entry list — the chunks' source filenames deduplicated
in first-seen order and capped at 3 — is `a.txt, b.txt, c.txt`, so `c.txt`
must be cited.  The code instead caps to the first three chunks *before*
deduplicating, cites only `a.txt` and `b.txt`, and `c.txt` does not occur
anywhere in the output (the numbering `1., 3.` also skips the duplicate). -/
theorem claim_C4_counterexample :
    format_response "ans".data [doc_a, doc_a, doc_b, doc_c]
      = "ans\n\n📚 **Sources:**\n1. a.txt\n3. b.txt\n".data
    ∧ ¬ ("c.txt".data
          <:+: format_response "ans".data [doc_a, doc_a, doc_b, doc_c]) :=
  ⟨by decide, by decide⟩

/-- C4 amended: when no chunk was retrieved, no sources section is appended;
when at least one was, the output is the trimmed response, the sources
header, and the citation lines of the kept entries, where the kept entries
are drawn from the first three retrieved chunks only (the cap is applied
before deduplication), deduplicated by full source path in first-seen order
(each entry rendered as the path's basename, or `System` for a missing
source), so that at most three entries appear and no source path is cited
twice. -/
theorem claim_C4_amended (response : Str) (sources : List Document) :
    (sources = [] → format_response response sources = pytrim response)
    ∧ (sources ≠ [] → format_response response sources
        = pytrim response ++ sources_header
          ++ ((entries_aux (sources.take 3) 1 []).map render_pair).flatten)
    ∧ ((entries_aux (sources.take 3) 1 []).map (fun p => doc_source p.2)
        = dedup_keep_first ((sources.take 3).map doc_source))
    ∧ ((entries_aux (sources.take 3) 1 []).map (fun p => doc_source p.2)).Nodup
    ∧ (entries_aux (sources.take 3) 1 []).length ≤ 3 := by
  refine ⟨?_, ?_, ?_, ?_, ?_⟩
  · intro h
    simp [format_response, h]
  · intro h
    have hlen : 0 < sources.length := List.length_pos.mpr h
    rw [format_response]
    simp only [hlen, gt_iff_lt, if_true]
    rw [sources_loop_eq]
  · rw [entries_aux_sources]
    congr 1
    simp
  · rw [entries_aux_sources]
    exact dedup_keep_first_nodup _
  · exact le_trans (entries_aux_length _ _ _) (List.length_take_le _ _)

/-- Witness for C4 (amended) at a concrete response and source list. -/
theorem claim_C4_witness :
    format_response "ans".data [doc_a, doc_b]
      = pytrim "ans".data ++ sources_header
        ++ ((entries_aux ([doc_a, doc_b].take 3) 1 []).map render_pair).flatten :=
  (claim_C4_amended "ans".data [doc_a, doc_b]).2.1 (by decide)

/-- Shifting the slice offsets by one chunk: slicing `L` at offsets
`s+50, s+100, …` is slicing `L.drop 50` at offsets `s, s+50, …`. -/
theorem slices_shift (L : List Char) (m : Nat) : ∀ (s : Nat),
    (List.range' (s + 50) m 50).map (QwenLLM.py_slice50 L)
      = (List.range' s m 50).map (QwenLLM.py_slice50 (L.drop 50)) := by
  induction m with
  | zero => intro s; rfl
  | succ m ih =>
    intro s
    rw [List.range'_succ, List.range'_succ, List.map_cons, List.map_cons,
      ih (s + 50)]
    congr 1
    simp only [QwenLLM.py_slice50]
    rw [List.drop_drop, Nat.add_comm 50 s]

/-- Concatenating the consecutive 50-character slices of a list restores the
list. -/
theorem join_slices (L : List Char) :
    ((QwenLLM.stream_offsets L.length).map (QwenLLM.py_slice50 L)).flatten
      = L := by
  rcases eq_or_ne L [] with h0 | h0
  · subst h0; rfl
  · have hlen : 0 < L.length := List.length_pos.mpr h0
    have hcount : (L.length + 49) / 50 = (L.length - 1) / 50 + 1 := by
      have h : L.length + 49 = (L.length - 1) + 50 := by omega
      rw [h, Nat.add_div_right _ (by norm_num)]
    have hcount2 : ((L.drop 50).length + 49) / 50 = (L.length - 1) / 50 := by
      rw [List.length_drop]
      rcases le_or_lt 50 L.length with h | h
      · have h2 : L.length - 50 + 49 = L.length - 1 := by omega
        rw [h2]
      · have h1 : L.length - 50 = 0 := by omega
        rw [h1, Nat.div_eq_of_lt (by norm_num), Nat.div_eq_of_lt (by omega)]
    have ih := join_slices (L.drop 50)
    rw [QwenLLM.stream_offsets, hcount2] at ih
    rw [QwenLLM.stream_offsets, hcount, List.range'_succ, List.map_cons,
      List.flatten_cons, slices_shift L ((L.length - 1) / 50) 0, ih]
    simp only [QwenLLM.py_slice50, List.drop_zero]
    exact List.take_append_drop 50 L
termination_by L.length
decreasing_by
  rw [List.length_drop]
  omega

/-- C10: the fragments `QwenLLM._stream` yields are the consecutive
50-character slices of the single response `QwenLLM._call` produces for the
prompt: their concatenation (in yield order) is exactly the call result, and
every fragment has at most `chunk_size` characters. -/
theorem claim_C10 (cfg : QwenLLM.Config) (backend : QwenLLM.Backend)
    (prompt : Str) :
    (QwenLLM.stream cfg backend prompt).flatten
      = QwenLLM.call cfg backend prompt
    ∧ ∀ fragment ∈ QwenLLM.stream cfg backend prompt,
        fragment.length ≤ QwenLLM.chunk_size := by
  constructor
  · exact join_slices (QwenLLM.call cfg backend prompt)
  · intro fragment hf
    simp only [QwenLLM.stream, List.mem_map] at hf
    obtain ⟨i, hi, rfl⟩ := hf
    exact List.length_take_le _ _

/-- Witness for C10: a backend whose 79-character response streams as a
50-character fragment followed by the remainder. -/
theorem claim_C10_witness :
    (QwenLLM.py_slice50
        (QwenLLM.call qwen_default_cfg qwen_long_backend "hi".data) 0).length
      ≤ QwenLLM.chunk_size :=
  (claim_C10 qwen_default_cfg qwen_long_backend "hi".data).2
    (QwenLLM.py_slice50
      (QwenLLM.call qwen_default_cfg qwen_long_backend "hi".data) 0)
    (by decide)

end ChatbotApp
